import Mathlib

/-!
Shallow embedding of the Simpler-Web-Crawler resource-orchestration layer.

The embedded code:
  * `init_resources` (src/app/main.py): lazily constructs the global
    ProcessPoolExecutor and the multiprocessing Manager.  Pool and
    coordinator instances are modelled by identity numbers drawn from a
    fresh-id counter; a raised Python exception is modelled by the
    `raised` flag, and the side effects (constructions, shutdowns) are
    recorded in an effect list.  Whether each of the two constructor
    calls would succeed is an input (`execOk`, `mgrOk`), since the
    Python constructors can raise for environment reasons.
  * `run_crawler_process`, `crawl_service`,
    `refresh_resources_service` (src/app/services/crawler_service.py).
    The behaviour of the dispatched crawl (what the Scrapy run does in
    the worker process) is an input of type `CrawlRun` / `WorkerRun`.
    The service module obtains `executor` and `manager` through
    `from app.main import executor, manager, init_resources`: a Python
    from-import copies the current values into the importing module's
    own namespace, so the service module holds its own bindings (frozen
    at the import-time value `None`), while `init_resources` — whose
    `global` statement targets app.main's namespace — rebinds only
    app.main's globals.  The state therefore has two components: the
    app.main globals (`AppState.main`) and the service module's
    bindings (`AppState.svc`); the service reads `svc`, while its
    `init_resources()` call updates `main`.
  * the monolithic handler `crawl` of src/web-crawler.py
    (embedded as `webcrawler_crawl`): there everything lives in one
    module, so its handler and `init_resources` genuinely share one set
    of globals, modelled by a single `ResState`.
  * `CrawlResponse` (src/app/models/crawler_models.py) and the
    response-model filtering FastAPI applies in
    src/app/api/v1/endpoints/crawler_controller.py.
  * `extract_important_text_bs4` (src/app/services/crawler_service.py)
    over an HTML document tree.
-/

/-- One scraped page, as appended by `HTMLSpider.parse`:
a url together with the extracted text (field named `html` in the source). -/
structure PageResult where
  url : String
  html : String
deriving DecidableEq, Repr

/-- The two module-level globals of src/app/main.py: `executor` and `manager`,
each either `none` (Python `None`) or the identity of a live instance.
`nextId` is the supply of fresh identities for newly constructed instances. -/
structure ResState where
  executor : Option Nat
  manager : Option Nat
  nextId : Nat
deriving DecidableEq, Repr

/-- Observable side effects of the manager layer: object constructions and
shutdown calls, tagged with the instance identity. -/
inductive Effect where
  | constructExecutor (id : Nat)
  | constructManager (id : Nat)
  | shutdownExecutor (id : Nat)
  | shutdownManager (id : Nat)
deriving DecidableEq, Repr

/-- Result of a call to `init_resources`: the global state after the call, the
effects performed, and whether the call re-raised an exception. -/
structure InitResult where
  state : ResState
  effects : List Effect
  raised : Bool
deriving DecidableEq, Repr

/-- `init_resources` of src/app/main.py.  Early-returns when both globals are
non-None.  Otherwise assigns `executor = ProcessPoolExecutor(...)` and then
`manager = multiprocessing.Manager()`; each assignment happens only if the
corresponding constructor call succeeds (`execOk` / `mgrOk`), and a constructor
failure re-raises after the `except` block, leaving the globals as they are at
that point. -/
def init_resources (execOk mgrOk : Bool) (s : ResState) : InitResult :=
  if s.executor.isSome && s.manager.isSome then
    { state := s, effects := [], raised := false }
  else if execOk then
    let eid := s.nextId
    let s1 : ResState := { executor := some eid, manager := s.manager, nextId := s.nextId + 1 }
    if mgrOk then
      let mid := s1.nextId
      { state := { executor := some eid, manager := some mid, nextId := s1.nextId + 1 },
        effects := [Effect.constructExecutor eid, Effect.constructManager mid],
        raised := false }
    else
      { state := s1, effects := [Effect.constructExecutor eid], raised := true }
  else
    { state := s, effects := [], raised := true }

/-- Behaviour of one Scrapy crawl run inside `run_crawler_process`:
either the run completes and the shared `spider_results` list holds `sink`,
or the run raises with `sinkAtFail` being the contents of the shared list at
the moment of failure. -/
inductive CrawlRun where
  | ok (sink : List PageResult)
  | raises (sinkAtFail : List PageResult)
deriving DecidableEq, Repr

/-- `run_crawler_process` of src/app/services/crawler_service.py: runs the
crawl; on completion returns `list(spider_results)`, on any exception logs and
returns `[]`. -/
def run_crawler_process (run : CrawlRun) : List PageResult :=
  match run with
  | CrawlRun.ok sink => sink
  | CrawlRun.raises _ => []

/-- Contents of the shared `spider_results` list after the crawl run
(the managed list keeps whatever was appended, whether or not the run raised). -/
def sinkAfter (run : CrawlRun) : List PageResult :=
  match run with
  | CrawlRun.ok sink => sink
  | CrawlRun.raises sinkAtFail => sinkAtFail

/-- Behaviour of the dispatched execution as seen by
`loop.run_in_executor(executor, run_crawler_process, ...)`:
either `run_crawler_process` runs to completion in the worker (with the given
crawl behaviour), or the await itself raises (for example the worker process
died), with `msg` the exception text. -/
inductive WorkerRun where
  | completes (run : CrawlRun)
  | boundaryFails (msg : String)
deriving DecidableEq, Repr

/-- The dict returned by `crawl_service`: a status, a results list and an
optional message (the `"message"` key is present only on error returns). -/
structure ServiceResult where
  status : String
  results : List PageResult
  message : Option String
deriving DecidableEq, Repr

/-- The resources-not-initialized error message of `crawl_service`. -/
def notInitMsg : String :=
  "Server resources are not initialized. Please ensure the server started correctly."

/-- The bindings `executor` and `manager` of the crawler_service module,
created by `from app.main import executor, manager, ...`: copies of app.main's
values at import time (both `None`, since app.main initializes lazily after
import).  Nothing in the source ever rebinds them to a live instance —
`refresh_resources_service`'s `global executor, manager` assignments set the
service module's bindings back to `None`. -/
structure SvcBindings where
  executor : Option Nat
  manager : Option Nat
deriving DecidableEq, Repr

/-- The full state seen by the service layer: app.main's module globals
(read and written by `init_resources`) and the crawler_service module's own
bindings (read by `crawl_service` and `refresh_resources_service`). -/
structure AppState where
  main : ResState
  svc : SvcBindings
deriving DecidableEq, Repr

/-- Outcome of one `crawl_service` call: `response = none` when an exception
propagated out of the coroutine, `dispatched` records whether the job was
handed to the executor. -/
structure SubmitResult where
  response : Option ServiceResult
  state : AppState
  dispatched : Bool
deriving DecidableEq, Repr

/-- The `try: await loop.run_in_executor ... except` block of `crawl_service`:
on completion returns status `finished` with the worker's results; if the
await raises, returns status `error` with empty results and a message. -/
def dispatchJob (w : WorkerRun) (st : AppState) : SubmitResult :=
  match w with
  | WorkerRun.completes run =>
      { response := some
          { status := "finished", results := run_crawler_process run, message := none },
        state := st, dispatched := true }
  | WorkerRun.boundaryFails msg =>
      { response := some
          { status := "error", results := [],
            message := some ("Crawl execution failed: " ++ msg) },
        state := st, dispatched := true }

/-- `crawl_service` of src/app/services/crawler_service.py.  Both its guard
and its re-check read the service module's own `executor`/`manager` bindings
(`st.svc`); the `init_resources()` call in between operates on app.main's
globals (`st.main`), and its exception would propagate.  Only if the service
bindings were live would the job be dispatched.  `start_urls` and
`allowed_domains` are passed through to the worker, never validated here. -/
def crawl_service (start_urls allowed_domains : List String)
    (execOk mgrOk : Bool) (w : WorkerRun) (st : AppState) : SubmitResult :=
  if st.svc.executor.isNone || st.svc.manager.isNone then
    let r := init_resources execOk mgrOk st.main
    let st1 : AppState := { main := r.state, svc := st.svc }
    if r.raised then
      { response := none, state := st1, dispatched := false }
    else if st1.svc.executor.isNone || st1.svc.manager.isNone then
      { response := some { status := "error", results := [], message := some notInitMsg },
        state := st1, dispatched := false }
    else
      dispatchJob w st1
  else
    dispatchJob w st

/-- The dict returned by `refresh_resources_service`. -/
structure RefreshResult where
  status : String
  message : String
deriving DecidableEq, Repr

/-- Outcome of one `refresh_resources_service` call. -/
structure RefreshOutcome where
  response : RefreshResult
  state : AppState
  effects : List Effect
deriving DecidableEq, Repr

/-- `refresh_resources_service` of src/app/services/crawler_service.py.
Its `global executor, manager` targets the crawler_service module, so the
`if executor:` / `if manager:` shutdown guards read the service module's own
bindings (`st.svc`) and the `executor = None; manager = None` assignments
reset those same bindings; app.main's live globals are never shut down.  The
subsequent `init_resources()` call operates on app.main's globals inside a
`try` that converts a raise into an error response. -/
def refresh_resources_service (execOk mgrOk : Bool) (st : AppState) : RefreshOutcome :=
  let shutdownEffects :=
    (match st.svc.executor with
      | some e => [Effect.shutdownExecutor e]
      | none => []) ++
    (match st.svc.manager with
      | some m => [Effect.shutdownManager m]
      | none => [])
  let svc0 : SvcBindings := { executor := none, manager := none }
  let r := init_resources execOk mgrOk st.main
  if r.raised then
    { response :=
        { status := "error",
          message := "Failed to re-initialize resources: init" },
      state := { main := r.state, svc := svc0 },
      effects := shutdownEffects ++ r.effects }
  else
    { response :=
        { status := "refreshed_and_restarted",
          message := "Worker pools have been terminated and new pools are ready for immediate use." },
      state := { main := r.state, svc := svc0 },
      effects := shutdownEffects ++ r.effects }

/-- A response of the monolithic `/crawl` handler in src/web-crawler.py:
a plain dict whose `message` and `results` keys are present only on some
branches. -/
structure WebCrawlerResponse where
  status : String
  message : Option String
  results : Option (List PageResult)
deriving DecidableEq, Repr

/-- Body of the monolithic handler after the resource check: rejects an empty
`start_urls` with an error and no dispatch, otherwise dispatches `run_crawler`
to the executor.  The third component records whether a worker was invoked. -/
def webcrawler_body (start_urls : List String) (w : WorkerRun) (s : ResState) :
    Option WebCrawlerResponse × ResState × Bool :=
  if start_urls = [] then
    (some
      { status := "error", message := some "start_urls must be provided.",
        results := none }, s, false)
  else
    match w with
    | WorkerRun.completes run =>
        (some
          { status := "finished", message := none,
            results := some (run_crawler_process run) }, s, true)
    | WorkerRun.boundaryFails msg =>
        (some
          { status := "error",
            message := some ("Crawl execution failed: " ++ msg), results := none }, s, true)

/-- The `/crawl` handler of src/web-crawler.py: same lazy re-initialization as
`crawl_service`, then JSON parsing (assumed well-formed here), then the
`if not start_urls` validation, then dispatch. -/
def webcrawler_crawl (start_urls allowed_domains : List String)
    (execOk mgrOk : Bool) (w : WorkerRun) (s : ResState) :
    Option WebCrawlerResponse × ResState × Bool :=
  if s.executor.isNone || s.manager.isNone then
    let r := init_resources execOk mgrOk s
    if r.raised then
      (none, r.state, false)
    else if r.state.executor.isNone || r.state.manager.isNone then
      (some { status := "error", message := some notInitMsg, results := none },
        r.state, false)
    else
      webcrawler_body start_urls w r.state
  else
    webcrawler_body start_urls w s

/-- `CrawlResponse` of src/app/models/crawler_models.py: only `status` and
`results` fields — the model declares no `message` field. -/
structure CrawlResponse where
  status : String
  results : List PageResult
deriving DecidableEq, Repr

/-- FastAPI serialization of a service dict through
`response_model=CrawlResponse` in crawler_controller.py: fields not declared
on the model are filtered out of the response. -/
def serializeCrawlResponse (r : ServiceResult) : CrawlResponse :=
  { status := r.status, results := r.results }

/-- `crawl_endpoint` of src/app/api/v1/endpoints/crawler_controller.py:
returns `crawl_service`'s dict serialized through the `CrawlResponse`
response model. -/
def crawl_endpoint (start_urls allowed_domains : List String)
    (execOk mgrOk : Bool) (w : WorkerRun) (st : AppState) : Option CrawlResponse :=
  (crawl_service start_urls allowed_domains execOk mgrOk w st).response.map
    serializeCrawlResponse

mutual
/-- An HTML node as BeautifulSoup sees it: a text node or an element with a
tag name and children. -/
inductive HtmlNode where
  | text (s : String)
  | elem (tag : String) (children : HtmlNodeList)
/-- A sibling list of HTML nodes. -/
inductive HtmlNodeList where
  | nil
  | cons (head : HtmlNode) (tail : HtmlNodeList)
end

/-- Builds a sibling list of HTML nodes from a Lean list. -/
def listToNodes : List HtmlNode → HtmlNodeList
  | [] => HtmlNodeList.nil
  | n :: ns => HtmlNodeList.cons n (listToNodes ns)

/-- The tag list iterated over by `extract_important_text_bs4`. -/
def removedTags : List String :=
  ["script", "style", "nav", "footer", "aside", "form", "s", "a"]

mutual
/-- Effect of the `element.decompose()` loop of `extract_important_text_bs4`
on one node: an element whose tag is in `removedTags` is removed together
with its whole subtree, any other node is kept with its children cleaned. -/
def pruneNode : HtmlNode → Option HtmlNode
  | HtmlNode.text s => some (HtmlNode.text s)
  | HtmlNode.elem t cs =>
      if t ∈ removedTags then none else some (HtmlNode.elem t (pruneList cs))
/-- The decompose loop over a sibling list. -/
def pruneList : HtmlNodeList → HtmlNodeList
  | HtmlNodeList.nil => HtmlNodeList.nil
  | HtmlNodeList.cons n ns =>
      match pruneNode n with
      | some m => HtmlNodeList.cons m (pruneList ns)
      | none => pruneList ns
end

mutual
/-- The text fragments of one node in document order. -/
def fragmentsNode : HtmlNode → List String
  | HtmlNode.text s => [s]
  | HtmlNode.elem _ cs => fragmentsList cs
/-- The text fragments of a sibling list in document order. -/
def fragmentsList : HtmlNodeList → List String
  | HtmlNodeList.nil => []
  | HtmlNodeList.cons n ns => fragmentsNode n ++ fragmentsList ns
end

/-- Python whitespace as stripped by `str.strip()` (the ASCII part, which is
all the inputs of interest contain). -/
def isPyWs (c : Char) : Bool :=
  c == ' ' || c == '\t' || c == '\n' || c == '\r' || c == '\x0b' || c == '\x0c'

/-- Python `str.strip()`: removes leading and trailing whitespace. -/
def pyStrip (s : String) : String :=
  String.mk (((s.data.dropWhile isPyWs).reverse.dropWhile isPyWs).reverse)

/-- `soup.get_text(separator="\n", strip=True)`: each text fragment is
stripped, fragments that are empty after stripping are dropped, and the rest
are joined with the separator. -/
def get_text (doc : HtmlNodeList) : String :=
  String.intercalate "\n" (((fragmentsList doc).map pyStrip).filter (fun s => s ≠ ""))

/-- Splits a character list at every newline character. -/
def splitNl : List Char → List (List Char)
  | [] => [[]]
  | c :: cs =>
      if c == '\n' then [] :: splitNl cs
      else
        match splitNl cs with
        | [] => [[c]]
        | l :: ls => (c :: l) :: ls

/-- Python `str.splitlines()` for LF-separated text: the empty string yields
no lines, a trailing newline does not open an extra empty line.  (Line
boundaries other than LF are not modelled; the text fed to it here is
LF-joined.) -/
def pySplitlines (s : String) : List String :=
  match s.data with
  | [] => []
  | cs =>
      let parts := splitNl cs
      (if cs.getLast? = some '\n' then parts.dropLast else parts).map
        (fun l => String.mk l)

/-- The lines retained by `extract_important_text_bs4`:
`[line for line in text.splitlines() if len(line) > 30]` applied to the text
of the pruned tree. -/
def extractLines (doc : HtmlNodeList) : List String :=
  (pySplitlines (get_text (pruneList doc))).filter (fun line => 30 < line.length)

/-- `extract_important_text_bs4` of src/app/services/crawler_service.py:
decompose the unwanted tags, get the visible text with newline separation,
keep only the lines longer than 30 characters, and join them with newlines. -/
def extract_important_text_bs4 (doc : HtmlNodeList) : String :=
  String.intercalate "\n" (extractLines doc)

/-- Script content for the concrete extraction scenario. -/
def scriptPayload : String := "var secret = 12345; trackVisitor();"

/-- A paragraph of exactly 40 characters. -/
def para40 : String := "This paragraph body is forty chars long."

/-- A paragraph of exactly 10 characters. -/
def para10 : String := "short text"

/-- The concrete HTML document of the extraction scenario: a script block,
a 40-character paragraph and a 10-character paragraph. -/
def sampleDoc : HtmlNodeList :=
  listToNodes
    [HtmlNode.elem "html" (listToNodes
      [HtmlNode.elem "body" (listToNodes
        [HtmlNode.elem "script" (listToNodes [HtmlNode.text scriptPayload]),
         HtmlNode.elem "p" (listToNodes [HtmlNode.text para40]),
         HtmlNode.elem "p" (listToNodes [HtmlNode.text para10])])])]

/-- With both of app.main's globals live, `init_resources` early-returns:
same state, no effects, no raise. -/
lemma init_resources_live (execOk mgrOk : Bool) (s : ResState) (e m : Nat)
    (he : s.executor = some e) (hm : s.manager = some m) :
    init_resources execOk mgrOk s = { state := s, effects := [], raised := false } := by
  simp [init_resources, he, hm]

/-- With the service module's executor binding unset — its import-time value,
and the only value it ever has — `crawl_service` never dispatches: it either
lets the exception of its `init_resources()` call propagate, or (whenever that
call returns) produces the resources-not-initialized error response. -/
lemma crawl_service_stale (start_urls allowed_domains : List String)
    (execOk mgrOk : Bool) (w : WorkerRun) (st : AppState)
    (hse : st.svc.executor = none) :
    (crawl_service start_urls allowed_domains execOk mgrOk w st).dispatched = false ∧
    ((crawl_service start_urls allowed_domains execOk mgrOk w st).response = none ∨
      (crawl_service start_urls allowed_domains execOk mgrOk w st).response
        = some { status := "error", results := [], message := some notInitMsg }) ∧
    ((init_resources execOk mgrOk st.main).raised = false →
      (crawl_service start_urls allowed_domains execOk mgrOk w st).response
        = some { status := "error", results := [], message := some notInitMsg }) := by
  cases hr : (init_resources execOk mgrOk st.main).raised <;>
    simp [crawl_service, hse, hr]

/-- A refresh resets the service module's executor binding to None (it was
already None in every reachable state). -/
lemma refresh_svc_executor_none (execOk mgrOk : Bool) (st : AppState) :
    (refresh_resources_service execOk mgrOk st).state.svc.executor = none := by
  cases hr : (init_resources execOk mgrOk st.main).raised <;>
    simp [refresh_resources_service, hr]

/-- A refresh changes app.main's globals exactly as its `init_resources()`
call does. -/
lemma refresh_state_main (execOk mgrOk : Bool) (st : AppState) :
    (refresh_resources_service execOk mgrOk st).state.main
      = (init_resources execOk mgrOk st.main).state := by
  cases hr : (init_resources execOk mgrOk st.main).raised <;>
    simp [refresh_resources_service, hr]

/-- C5: when both the worker pool and the coordinator are already live,
`init_resources` is a no-op — it returns with the same executor and manager
identities, performs no construction, and does not raise; calling it twice in
a row therefore performs no reconstruction either. -/
theorem init_resources_idempotent (execOk mgrOk : Bool) (s : ResState) (e m : Nat)
    (he : s.executor = some e) (hm : s.manager = some m) :
    init_resources execOk mgrOk s = { state := s, effects := [], raised := false } ∧
    init_resources execOk mgrOk (init_resources execOk mgrOk s).state
      = { state := s, effects := [], raised := false } := by
  have h1 : init_resources execOk mgrOk s = { state := s, effects := [], raised := false } := by
    simp [init_resources, he, hm]
  refine ⟨h1, ?_⟩
  rw [h1]
  exact h1

/-- Witness for `init_resources_idempotent` at a concrete live state. -/
theorem init_resources_idempotent_witness :
    init_resources true true ⟨some 0, some 1, 2⟩
      = { state := ⟨some 0, some 1, 2⟩, effects := [], raised := false } ∧
    init_resources true true (init_resources true true ⟨some 0, some 1, 2⟩).state
      = { state := ⟨some 0, some 1, 2⟩, effects := [], raised := false } :=
  init_resources_idempotent true true ⟨some 0, some 1, 2⟩ 0 1 rfl rfl

/-- C1 counterexample: starting from both references unset, if the pool
construction succeeds and the coordinator construction raises, the call
raises with the pool reference live and the coordinator reference unset —
a state in which exactly one of the two is live is visible to callers. -/
theorem init_resources_partial_on_manager_failure :
    (init_resources true false ⟨none, none, 0⟩).raised = true ∧
    (init_resources true false ⟨none, none, 0⟩).state.executor = some 0 ∧
    (init_resources true false ⟨none, none, 0⟩).state.manager = none := by
  decide

/-- C1 as amended: if the pool construction raises, the references are left
exactly as they were (both unset when the call began with both unset); if the
pool construction succeeds and the coordinator construction raises, the pool
reference is freshly set while the coordinator reference stays unset. -/
theorem init_resources_failure_states (mgrOk : Bool) (s : ResState) :
    (init_resources false mgrOk s).state = s ∧
    (s.executor = none → s.manager = none →
      (init_resources true false s).raised = true ∧
      (init_resources true false s).state.executor = some s.nextId ∧
      (init_resources true false s).state.manager = none) := by
  constructor
  · by_cases h : (s.executor.isSome && s.manager.isSome) = true <;>
      simp [init_resources, h]
  · intro he hm
    simp [init_resources, he, hm]

/-- Witness for `init_resources_failure_states` at the fully-unset state. -/
theorem init_resources_failure_states_witness :
    (init_resources false true ⟨none, none, 0⟩).state = ⟨none, none, 0⟩ ∧
    ((init_resources true false ⟨none, none, 0⟩).raised = true ∧
      (init_resources true false ⟨none, none, 0⟩).state.executor = some 0 ∧
      (init_resources true false ⟨none, none, 0⟩).state.manager = none) :=
  ⟨(init_resources_failure_states true ⟨none, none, 0⟩).1,
   (init_resources_failure_states true ⟨none, none, 0⟩).2 rfl rfl⟩

/-- C10: from a partial state (exactly one of executor and manager live),
`init_resources` does not take the early return: it constructs a fresh pool
and a fresh coordinator, overwrites both references, and performs no shutdown
of the still-live old instance. -/
theorem init_resources_partial_state_reconstructs (s : ResState)
    (hmixed : s.executor.isSome ≠ s.manager.isSome)
    (hfreshE : ∀ e, s.executor = some e → e < s.nextId)
    (hfreshM : ∀ m, s.manager = some m → m < s.nextId) :
    init_resources true true s
      = { state :=
            { executor := some s.nextId, manager := some (s.nextId + 1),
              nextId := s.nextId + 2 },
          effects :=
            [Effect.constructExecutor s.nextId,
             Effect.constructManager (s.nextId + 1)],
          raised := false } ∧
    (init_resources true true s).state.executor ≠ s.executor ∧
    (init_resources true true s).state.manager ≠ s.manager ∧
    (∀ i, Effect.shutdownExecutor i ∉ (init_resources true true s).effects ∧
          Effect.shutdownManager i ∉ (init_resources true true s).effects) := by
  have hguard : (s.executor.isSome && s.manager.isSome) = false := by
    cases hE : s.executor <;> cases hM : s.manager <;> simp_all
  have h : init_resources true true s
      = { state :=
            { executor := some s.nextId, manager := some (s.nextId + 1),
              nextId := s.nextId + 2 },
          effects :=
            [Effect.constructExecutor s.nextId,
             Effect.constructManager (s.nextId + 1)],
          raised := false } := by
    simp [init_resources, hguard]
  refine ⟨h, ?_, ?_, ?_⟩
  · rw [h]
    cases hE : s.executor with
    | none => simp
    | some e =>
        have := hfreshE e hE
        simp only [Option.some.injEq, ne_eq]
        omega
  · rw [h]
    cases hM : s.manager with
    | none => simp
    | some m =>
        have := hfreshM m hM
        simp only [Option.some.injEq, ne_eq]
        omega
  · rw [h]
    intro i
    simp

/-- C2: the stale-import defect made visible.  After a `Refresh`, a `Submit`
never dispatches any job, and whenever its own `init_resources()` call
returns (in particular always when app.main's globals are live, the normal
post-startup condition) it returns exactly the resources-not-initialized
error response — it never succeeds, because both the guard and the re-check
in `crawl_service` read the service module's import-frozen bindings, which a
refresh leaves at None. -/
theorem refresh_then_submit_notinit_bug (start_urls allowed_domains : List String)
    (eo1 mo1 eo2 mo2 : Bool) (w : WorkerRun) (st : AppState) :
    (crawl_service start_urls allowed_domains eo2 mo2 w
        (refresh_resources_service eo1 mo1 st).state).dispatched = false ∧
    ((crawl_service start_urls allowed_domains eo2 mo2 w
        (refresh_resources_service eo1 mo1 st).state).response = none ∨
      (crawl_service start_urls allowed_domains eo2 mo2 w
        (refresh_resources_service eo1 mo1 st).state).response
        = some { status := "error", results := [], message := some notInitMsg }) ∧
    (∀ e m, st.main.executor = some e → st.main.manager = some m →
      (crawl_service start_urls allowed_domains eo2 mo2 w
        (refresh_resources_service eo1 mo1 st).state).response
        = some { status := "error", results := [], message := some notInitMsg }) := by
  obtain ⟨h1, h2, h3⟩ := crawl_service_stale start_urls allowed_domains eo2 mo2 w
    (refresh_resources_service eo1 mo1 st).state
    (refresh_svc_executor_none eo1 mo1 st)
  refine ⟨h1, h2, ?_⟩
  intro e m he hm
  apply h3
  rw [refresh_state_main, init_resources_live eo1 mo1 st.main e m he hm]
  exact congrArg InitResult.raised (init_resources_live eo2 mo2 st.main e m he hm)

/-- Witness for `refresh_then_submit_notinit_bug`: refresh then submit at a
concrete state with app.main's globals live returns the not-initialized
error. -/
theorem refresh_then_submit_notinit_bug_witness :
    (crawl_service ["http://a.test"] ["a.test"] true true
        (WorkerRun.completes (CrawlRun.ok []))
        (refresh_resources_service true true
          ⟨⟨some 0, some 1, 2⟩, ⟨none, none⟩⟩).state).response
      = some { status := "error", results := [], message := some notInitMsg } :=
  (refresh_then_submit_notinit_bug ["http://a.test"] ["a.test"] true true true true
    (WorkerRun.completes (CrawlRun.ok []))
    ⟨⟨some 0, some 1, 2⟩, ⟨none, none⟩⟩).2.2 0 1 rfl rfl

/-- C3: the dispatch the claim presupposes never happens.  With the service
module's executor binding at its import-time value None, `crawl_service`
never dispatches any worker-side execution: every call either propagates an
`init_resources` exception or returns the resources-not-initialized error —
with app.main's globals live (the normal running condition) always the
latter — so no worker-side failure can ever be answered with the claimed
`error`-with-message outcome. -/
theorem crawl_service_never_dispatches (start_urls allowed_domains : List String)
    (execOk mgrOk : Bool) (w : WorkerRun) (st : AppState)
    (hse : st.svc.executor = none) :
    (crawl_service start_urls allowed_domains execOk mgrOk w st).dispatched = false ∧
    ((crawl_service start_urls allowed_domains execOk mgrOk w st).response = none ∨
      (crawl_service start_urls allowed_domains execOk mgrOk w st).response
        = some { status := "error", results := [], message := some notInitMsg }) ∧
    (∀ e m, st.main.executor = some e → st.main.manager = some m →
      (crawl_service start_urls allowed_domains execOk mgrOk w st).response
        = some { status := "error", results := [], message := some notInitMsg }) := by
  obtain ⟨h1, h2, h3⟩ := crawl_service_stale start_urls allowed_domains execOk mgrOk w st hse
  exact ⟨h1, h2, fun e m he hm =>
    h3 (congrArg InitResult.raised (init_resources_live execOk mgrOk st.main e m he hm))⟩

/-- Witness for `crawl_service_never_dispatches` at a concrete state whose
app.main globals are live and whose job would raise inside the worker. -/
theorem crawl_service_never_dispatches_witness :
    (crawl_service ["http://a.test"] ["a.test"] true true
        (WorkerRun.completes (CrawlRun.raises [⟨"http://a.test", "x"⟩]))
        ⟨⟨some 0, some 1, 2⟩, ⟨none, none⟩⟩).dispatched = false ∧
    (crawl_service ["http://a.test"] ["a.test"] true true
        (WorkerRun.completes (CrawlRun.raises [⟨"http://a.test", "x"⟩]))
        ⟨⟨some 0, some 1, 2⟩, ⟨none, none⟩⟩).response
      = some { status := "error", results := [], message := some notInitMsg } :=
  have h := crawl_service_never_dispatches ["http://a.test"] ["a.test"] true true
    (WorkerRun.completes (CrawlRun.raises [⟨"http://a.test", "x"⟩]))
    ⟨⟨some 0, some 1, 2⟩, ⟨none, none⟩⟩ rfl
  ⟨h.1, h.2.2 0 1 rfl rfl⟩

/-- C4: `run_crawler_process` does catch a crawl-run exception and return the
empty list as the claim says, but the rest of the claim fails in the modular
service: no job is ever dispatched to a worker, and a subsequent independent
`Submit` cannot succeed — its response status is never `finished`, because
every `crawl_service` call trips over the service module's import-frozen None
bindings. -/
theorem fetch_raise_not_isolated (sinkAtFail : List PageResult)
    (start_urls allowed_domains : List String) (execOk mgrOk : Bool)
    (w : WorkerRun) (st : AppState) (hse : st.svc.executor = none) :
    run_crawler_process (CrawlRun.raises sinkAtFail) = [] ∧
    (crawl_service start_urls allowed_domains execOk mgrOk w st).dispatched = false ∧
    (crawl_service start_urls allowed_domains execOk mgrOk w st).response.map
        ServiceResult.status ≠ some "finished" := by
  obtain ⟨h1, h2, -⟩ := crawl_service_stale start_urls allowed_domains execOk mgrOk w st hse
  refine ⟨rfl, h1, ?_⟩
  rcases h2 with h | h <;> rw [h] <;> simp

/-- Witness for `fetch_raise_not_isolated` at a concrete state: the follow-up
submit that the claim says can succeed does not report `finished`. -/
theorem fetch_raise_not_isolated_witness :
    run_crawler_process (CrawlRun.raises [⟨"http://a.test", "x"⟩]) = [] ∧
    (crawl_service ["http://b.test"] ["b.test"] true true
        (WorkerRun.completes (CrawlRun.ok [⟨"http://b.test", "y"⟩]))
        ⟨⟨some 0, some 1, 2⟩, ⟨none, none⟩⟩).dispatched = false ∧
    (crawl_service ["http://b.test"] ["b.test"] true true
        (WorkerRun.completes (CrawlRun.ok [⟨"http://b.test", "y"⟩]))
        ⟨⟨some 0, some 1, 2⟩, ⟨none, none⟩⟩).response.map
        ServiceResult.status ≠ some "finished" :=
  fetch_raise_not_isolated [⟨"http://a.test", "x"⟩] ["http://b.test"] ["b.test"]
    true true (WorkerRun.completes (CrawlRun.ok [⟨"http://b.test", "y"⟩]))
    ⟨⟨some 0, some 1, 2⟩, ⟨none, none⟩⟩ rfl

/-- C9: when the crawl run raises with results already appended to the shared
sink, `run_crawler_process` returns the empty list, which then differs from
the sink's contents; only a non-raising run returns a copy of the sink. -/
theorem run_crawler_process_discards_partial (sinkAtFail : List PageResult)
    (hne : sinkAtFail ≠ []) :
    run_crawler_process (CrawlRun.raises sinkAtFail) = [] ∧
    run_crawler_process (CrawlRun.raises sinkAtFail)
      ≠ sinkAfter (CrawlRun.raises sinkAtFail) ∧
    (∀ sink, run_crawler_process (CrawlRun.ok sink) = sinkAfter (CrawlRun.ok sink)) := by
  refine ⟨rfl, ?_, fun _ => rfl⟩
  intro h
  exact hne h.symm

/-- Witness for `run_crawler_process_discards_partial` at a one-element sink. -/
theorem run_crawler_process_discards_partial_witness :
    run_crawler_process (CrawlRun.raises [⟨"http://a.test", "x"⟩]) = [] ∧
    run_crawler_process (CrawlRun.raises [⟨"http://a.test", "x"⟩])
      ≠ sinkAfter (CrawlRun.raises [⟨"http://a.test", "x"⟩]) ∧
    (∀ sink, run_crawler_process (CrawlRun.ok sink) = sinkAfter (CrawlRun.ok sink)) :=
  run_crawler_process_discards_partial [⟨"http://a.test", "x"⟩] (by decide)

/-- C6: for every job with empty `start_urls`, Submit returns an outcome with
status `error` and dispatches no work to any worker process.  The modular
service does so because every call (empty or not) returns the
resources-not-initialized error before any dispatch — its import-frozen
bindings are None and app.main's live globals make its `init_resources()`
call return normally; the monolithic handler of src/web-crawler.py does so by
its explicit `start_urls must be provided.` validation. -/
theorem empty_start_urls_rejected (allowed_domains : List String)
    (execOk mgrOk : Bool) (w : WorkerRun) (st : AppState) (s : ResState)
    (e m e2 m2 : Nat)
    (hse : st.svc.executor = none)
    (hme : st.main.executor = some e) (hmm : st.main.manager = some m)
    (he2 : s.executor = some e2) (hm2 : s.manager = some m2) :
    (crawl_service [] allowed_domains execOk mgrOk w st).response
      = some { status := "error", results := [], message := some notInitMsg } ∧
    (crawl_service [] allowed_domains execOk mgrOk w st).dispatched = false ∧
    webcrawler_crawl [] allowed_domains execOk mgrOk w s
      = (some
          { status := "error", message := some "start_urls must be provided.",
            results := none }, s, false) := by
  obtain ⟨h1, -, h3⟩ := crawl_service_stale [] allowed_domains execOk mgrOk w st hse
  refine ⟨h3 (congrArg InitResult.raised
    (init_resources_live execOk mgrOk st.main e m hme hmm)), h1, ?_⟩
  have hlive : webcrawler_crawl [] allowed_domains execOk mgrOk w s
      = webcrawler_body [] w s := by
    simp [webcrawler_crawl, he2, hm2]
  rw [hlive]
  rfl

/-- Witness for `empty_start_urls_rejected` at concrete live states of both
programs. -/
theorem empty_start_urls_rejected_witness :
    (crawl_service [] ["a.test"] true true (WorkerRun.completes (CrawlRun.ok []))
        ⟨⟨some 0, some 1, 2⟩, ⟨none, none⟩⟩).response
      = some { status := "error", results := [], message := some notInitMsg } ∧
    (crawl_service [] ["a.test"] true true (WorkerRun.completes (CrawlRun.ok []))
        ⟨⟨some 0, some 1, 2⟩, ⟨none, none⟩⟩).dispatched = false ∧
    webcrawler_crawl [] ["a.test"] true true (WorkerRun.completes (CrawlRun.ok []))
        ⟨some 0, some 1, 2⟩
      = (some
          { status := "error", message := some "start_urls must be provided.",
            results := none }, ⟨some 0, some 1, 2⟩, false) :=
  empty_start_urls_rejected ["a.test"] true true (WorkerRun.completes (CrawlRun.ok []))
    ⟨⟨some 0, some 1, 2⟩, ⟨none, none⟩⟩ ⟨some 0, some 1, 2⟩ 0 1 0 1 rfl rfl rfl rfl rfl

/-- C7: the extraction policy.  Every line of the output is strictly longer
than 30 characters; every line of the pruned document's visible text longer
than 30 characters is retained; a `script` element is removed with its whole
subtree; and on the concrete document with a script block, a 40-character
paragraph and a 10-character paragraph, the output is exactly the 40-character
line — containing neither the script content nor the 10-character line. -/
theorem extraction_policy :
    (∀ (doc : HtmlNodeList) (line : String),
        line ∈ extractLines doc → 30 < line.length) ∧
    (∀ (doc : HtmlNodeList) (line : String),
        line ∈ pySplitlines (get_text (pruneList doc)) → 30 < line.length →
          line ∈ extractLines doc) ∧
    (∀ (cs rest : HtmlNodeList),
        pruneList (HtmlNodeList.cons (HtmlNode.elem "script" cs) rest)
          = pruneList rest) ∧
    para40.length = 40 ∧
    para10.length = 10 ∧
    extractLines sampleDoc = [para40] ∧
    extract_important_text_bs4 sampleDoc = para40 := by
  refine ⟨?_, ?_, ?_, by decide, by decide, by decide, by decide⟩
  · intro doc line h
    exact of_decide_eq_true (List.mem_filter.mp h).2
  · intro doc line h hlen
    exact List.mem_filter.mpr ⟨h, decide_eq_true hlen⟩
  · intro cs rest
    rfl

/-- Witness for `extraction_policy` at the concrete document and its
40-character line. -/
theorem extraction_policy_witness :
    30 < para40.length ∧ para40 ∈ extractLines sampleDoc :=
  ⟨extraction_policy.1 sampleDoc para40 (by decide),
   extraction_policy.2.1 sampleDoc para40 (by decide) (by decide)⟩

/-- C8: the `CrawlResponse` response model always carries a status and a
results field, but it declares no message field, so the serialization at the
HTTP boundary is independent of the service's message and the message string
produced on an error outcome is dropped rather than delivered.  At the
concrete input every running deployment hits — app.main's globals live, the
service's import-frozen bindings None — the service dict carries the
not-initialized message while the endpoint's response is only the status and
the empty results. -/
theorem crawl_response_drops_message :
    (∀ (r : ServiceResult) (m : Option String),
        serializeCrawlResponse { r with message := m } = serializeCrawlResponse r) ∧
    (crawl_service ["http://a.test"] ["a.test"] true true
        (WorkerRun.completes (CrawlRun.ok []))
        ⟨⟨some 0, some 1, 2⟩, ⟨none, none⟩⟩).response
      = some { status := "error", results := [], message := some notInitMsg } ∧
    crawl_endpoint ["http://a.test"] ["a.test"] true true
        (WorkerRun.completes (CrawlRun.ok []))
        ⟨⟨some 0, some 1, 2⟩, ⟨none, none⟩⟩
      = some { status := "error", results := [] } :=
  ⟨fun r m => rfl, by decide, by decide⟩

/-- Witness for `init_resources_partial_state_reconstructs` at a concrete
partial state with a live executor and an unset manager. -/
theorem init_resources_partial_state_reconstructs_witness :
    init_resources true true ⟨some 0, none, 1⟩
      = { state := { executor := some 1, manager := some 2, nextId := 3 },
          effects := [Effect.constructExecutor 1, Effect.constructManager 2],
          raised := false } ∧
    (init_resources true true ⟨some 0, none, 1⟩).state.executor
      ≠ (⟨some 0, none, 1⟩ : ResState).executor :=
  have h := init_resources_partial_state_reconstructs ⟨some 0, none, 1⟩ (by decide)
    (fun e he => by simp at he; show e < 1; omega)
    (fun m hm => by simp at hm)
  ⟨h.1, h.2.1⟩
